import Mathlib

/-!
Verification of the PMO-Tool task-tracking core (src/Gannt.py) against its
natural-language specification.

The pandas DataFrame `st.session_state.df` (the Task Store) is modelled as a
`List Row`.  Calendar timestamps are modelled at day granularity as the number
of days since 1970-01-01 (the store's dates always come from `%m/%d/%Y` parses,
so their time-of-day component is zero).  Missing cells (pandas `NaN`/`NaT`)
are modelled with `Option`.  Numeric cells are modelled as integers (the
numeric columns of this program hold int64 data); the
float result of the burn-rate division is modelled by `PyFloat`, which keeps
numpy's division-by-zero semantics (inf / -inf / NaN) explicit.
-/

namespace PMO

/-- A calendar date, as days since 1970-01-01 (which was a Thursday). -/
abbrev Date := Nat

/-- Weekday with dateutil's convention Monday = 0, ..., Sunday = 6.
1970-01-01 (day 0) was a Thursday, i.e. weekday 3. -/
def weekday (d : Date) : Nat := (d + 3) % 7

/-- Days since 1970-01-01 of the civil date y-m-d (valid for y at least 1970),
via the standard Gregorian-calendar day-count algorithm. -/
def daysFromCivil (y m d : Nat) : Nat :=
  let y2 := if m ≤ 2 then y - 1 else y
  let era := y2 / 400
  let yoe := y2 % 400
  let mp := if 2 < m then m - 3 else m + 9
  let doy := (153 * mp + 2) / 5 + d - 1
  let doe := yoe * 365 + yoe / 4 - yoe / 100 + doy
  era * 146097 + doe - 719468

/-- The (1-based) month of the civil date corresponding to a day number,
inverse direction of `daysFromCivil`. -/
def civilMonth (z : Date) : Nat :=
  let z2 := z + 719468
  let doe := z2 % 146097
  let yoe := (doe - doe / 1460 + doe / 36524 - doe / 146096) / 365
  let doy := doe - (365 * yoe + yoe / 4 - yoe / 100)
  let mp := (5 * doy + 2) / 153
  if mp < 10 then mp + 3 else mp - 9

/-- The year of the civil date corresponding to a day number. -/
def civilYear (z : Date) : Nat :=
  let z2 := z + 719468
  let era := z2 / 146097
  let doe := z2 % 146097
  let yoe := (doe - doe / 1460 + doe / 36524 - doe / 146096) / 365
  let y := yoe + era * 400
  if civilMonth z ≤ 2 then y + 1 else y

/-- The day-of-month of the civil date corresponding to a day number. -/
def civilDay (z : Date) : Nat :=
  let z2 := z + 719468
  let doe := z2 % 146097
  let yoe := (doe - doe / 1460 + doe / 36524 - doe / 146096) / 365
  let doy := doe - (365 * yoe + yoe / 4 - yoe / 100)
  let mp := (5 * doy + 2) / 153
  doy - (153 * mp + 2) / 5 + 1

/-- Gregorian leap-year test. -/
def isLeap (y : Nat) : Bool := (y % 4 == 0 && y % 100 != 0) || y % 400 == 0

/-- Number of days of month m in year y. -/
def daysInMonth (y m : Nat) : Nat :=
  if m = 2 then (if isLeap y then 29 else 28)
  else if m = 4 ∨ m = 6 ∨ m = 9 ∨ m = 11 then 30
  else 31

/-- Result of a numpy / pandas floating-point computation: a finite value or
one of the non-finite floats that silently arise from division by zero. -/
inductive PyFloat where
  | val (q : ℚ)
  | posInf
  | negInf
  | nan
deriving DecidableEq, Repr

/-- Numpy float division: b = 0 gives inf / -inf / NaN (with only a runtime
warning), never an exception; otherwise the exact quotient. -/
def pyDiv (a b : ℤ) : PyFloat :=
  if b ≠ 0 then .val ((a : ℚ) / (b : ℚ))
  else if 0 < a then .posInf
  else if a < 0 then .negInf
  else .nan

/-- A raw cell of the editable frame: a number, a string, or NaN. -/
inductive PVal where
  | num (n : ℤ)
  | str (s : String)
  | na
deriving DecidableEq, Repr

/-- One row of the Task Store in its analyzer-stage form (dates parsed).
Each field mirrors a DataFrame column; pandas NaN/NaT is `none`. -/
structure Row where
  task : String
  subtask : Option String
  start_date : Option Date
  end_date : Option Date
  assignee : Option String
  status : Option String
  progress : Option ℤ
  priority : Option String
  time_spent : Option ℤ
  comments : Option String
  dependencies : Option String
  budget : Option ℤ
  cost : Option ℤ
deriving DecidableEq, Repr

/-- One row of a CSV / Excel file as decoded by `read_csv` / `read_excel`:
the two date columns are still raw strings (an unset date is the empty
string), every other column is already a scalar. -/
structure CsvRow where
  task : String
  subtask : Option String
  start_date : String
  end_date : String
  assignee : Option String
  status : Option String
  progress : Option ℤ
  priority : Option String
  time_spent : Option ℤ
  comments : Option String
  dependencies : Option String
  budget : Option ℤ
  cost : Option ℤ
deriving DecidableEq, Repr

/-! ### Character-list string utilities

Executable counterparts of the Python string operations the source uses,
written by structural recursion on `String.data` so that concrete instances
evaluate inside the kernel. -/

/-- Split a character list at every occurrence of `sep` (Python `split`). -/
def splitChar (sep : Char) : List Char → List (List Char)
  | [] => [[]]
  | c :: cs =>
    let r := splitChar sep cs
    if c == sep then [] :: r
    else
      match r with
      | [] => [[c]]
      | g :: gs => (c :: g) :: gs

/-- ASCII digit test. -/
def chIsDigit (c : Char) : Bool := 48 ≤ c.toNat && c.toNat ≤ 57

/-- Value of a non-empty all-digit character list, `none` otherwise. -/
def digitsToNatAux : List Char → Nat → Option Nat
  | [], acc => some acc
  | c :: cs, acc =>
    if chIsDigit c then digitsToNatAux cs (acc * 10 + (c.toNat - 48)) else none

/-- Decimal numeral parser (Python `int` on a digit string). -/
def digitsToNat : List Char → Option Nat
  | [] => none
  | l => digitsToNatAux l 0

/-- Decimal digits of `n` (most significant first), with enough fuel for
every number this program handles. -/
def natDigitsAux : Nat → Nat → List Char
  | 0, _ => []
  | fuel + 1, n =>
    if n = 0 then [] else natDigitsAux fuel (n / 10) ++ [Char.ofNat (48 + n % 10)]

/-- Decimal rendering of a natural number. -/
def natToChars (n : Nat) : List Char :=
  if n = 0 then ['0'] else natDigitsAux 8 n

/-- Does `l` start with `pat`? -/
def chBeginsWith : List Char → List Char → Bool
  | [], _ => true
  | _ :: _, [] => false
  | p :: ps, c :: cs => p == c && chBeginsWith ps cs

/-- Python `str.endswith` on the underlying character lists. -/
def strEndsWith (s suffix : String) : Bool :=
  chBeginsWith suffix.data.reverse s.data.reverse

/-- Python `str.strip`: drop leading and trailing spaces. -/
def chTrim (l : List Char) : List Char :=
  (((l.dropWhile (· == ' ')).reverse).dropWhile (· == ' ')).reverse

/-- `s.split(',')` followed by `.strip()` on each piece (Gannt.py 160-161). -/
def splitCommasTrim (s : String) : List String :=
  (splitChar ',' s.data).map (fun l => String.mk (chTrim l))

/-! ### Date parsing and formatting (ingestion / export boundary) -/

/-- Parser for the `%m/%d/%Y` external date format used by
`pd.to_datetime(..., format='%m/%d/%Y', errors='coerce')` (Gannt.py lines
50-51): month/day/year separated by slashes, month and day optionally
zero-padded, validated against the calendar; anything else coerces to NaT
(`none`).  The model covers years from 1970 on (all dates of this program). -/
def parseMDY (s : String) : Option Date :=
  match splitChar '/' s.data with
  | [ms, ds, ys] =>
    match digitsToNat ms, digitsToNat ds, digitsToNat ys with
    | some m, some d, some y =>
      if 1 ≤ m ∧ m ≤ 12 ∧ 1 ≤ d ∧ d ≤ daysInMonth y m ∧ 1970 ≤ y then
        some (daysFromCivil y m d)
      else none
    | _, _, _ => none
  | _ => none

/-- Zero-pad a number to two digits. -/
def pad2 (n : Nat) : List Char :=
  (if n < 10 then ['0'] else []) ++ natToChars n

/-- How `DataFrame.to_csv` renders a datetime64 cell: ISO `YYYY-MM-DD` for a
midnight timestamp, and the empty field for NaT. -/
def isoDate : Option Date → String
  | none => ""
  | some z =>
    String.mk (natToChars (civilYear z) ++ ['-'] ++ pad2 (civilMonth z) ++ ['-'] ++ pad2 (civilDay z))

/-! ### Ingestion (`load_data`, lines 40-52) and the upload caller (lines 58-60) -/

/-- An uploaded file: its name and its tabular content as the CSV / Excel
reader would decode it. -/
structure UploadedFile where
  name : String
  rows : List CsvRow
deriving DecidableEq, Repr

/-- Date normalization applied by `load_data` to one decoded row:
`pd.to_datetime(df[...], format='%m/%d/%Y', errors='coerce')`. -/
def parseCsvRow (c : CsvRow) : Row :=
  { task := c.task, subtask := c.subtask,
    start_date := parseMDY c.start_date, end_date := parseMDY c.end_date,
    assignee := c.assignee, status := c.status, progress := c.progress,
    priority := c.priority, time_spent := c.time_spent, comments := c.comments,
    dependencies := c.dependencies, budget := c.budget, cost := c.cost }

/-- Gannt.py lines 40-52: dispatch on the file extension; a `.csv` or `.xlsx`
file is decoded and its date columns parsed, any other extension reports
"Unsupported file format" via `st.error` and returns `None`. -/
def load_data (f : UploadedFile) : Option (List Row) :=
  if strEndsWith f.name (".csv") then some (f.rows.map parseCsvRow)
  else if strEndsWith f.name (".xlsx") then some (f.rows.map parseCsvRow)
  else none

/-- Gannt.py lines 58-60: when a file is present the script runs
`df = load_data(uploaded_file); st.session_state.df = df`, overwriting the
session Task Store with whatever `load_data` returned - including `None`. -/
def uploadStep (_store : Option (List Row)) (f : UploadedFile) : Option (List Row) :=
  load_data f

/-! ### Export (lines 392-400) -/

/-- Rendering of one store row by `to_csv` at the export button: at that point
of the script the date columns are datetime64 (they were re-parsed at lines
328-329), so `to_csv` writes them in ISO `YYYY-MM-DD` form, not `%m/%d/%Y`. -/
def exportRow (r : Row) : CsvRow :=
  { task := r.task, subtask := r.subtask,
    start_date := isoDate r.start_date, end_date := isoDate r.end_date,
    assignee := r.assignee, status := r.status, progress := r.progress,
    priority := r.priority, time_spent := r.time_spent, comments := r.comments,
    dependencies := r.dependencies, budget := r.budget, cost := r.cost }

/-- The file written by "Download Current View as CSV" (lines 393-395). -/
def exportStore (df : List Row) : UploadedFile :=
  { name := "current_project_view.csv", rows := df.map exportRow }

/-- Export followed by re-ingestion of the exported file. -/
def roundTrip (df : List Row) : Option (List Row) :=
  load_data (exportStore df)

/-! ### Recurrence expansion (`add_recurring_task_advanced`, lines 177-193) -/

/-- Failure of the recurrence expander.  For an unknown recurrence type the
source leaves the local `rule` unbound, so `for dt in rule` raises before any
row is appended; the spec's name for this failure is `InvalidRecurrenceRule`. -/
inductive RecurrenceError where
  | invalidRecurrenceRule
deriving DecidableEq, Repr

/-- The dict appended for each generated occurrence (lines 185-192): only
Task, Start Date, End Date, Status and Progress are supplied, so every other
column of the appended row is NaN. -/
def recRow (task_name : String) (dt : Date) : Row :=
  { task := task_name, subtask := none,
    start_date := some dt, end_date := some (dt + 1),
    assignee := none, status := some "Not Started", progress := some 0,
    priority := none, time_spent := none, comments := none,
    dependencies := none, budget := none, cost := none }

/-- The first date on or after `a` whose weekday is `w`. -/
def rruleFirst (w : Nat) (a : Date) : Date := a + (w + 7 - weekday a) % 7

/-- Occurrences of `rrule(freq=WEEKLY, byweekday=w, dtstart=a, until=b)`:
the first date on or after `a` whose weekday is `w`, then every 7 days while
still at most `b` (dateutil steps week by week; it does not scan every day). -/
def rruleWeekly (w : Nat) (a b : Date) : List Date :=
  (List.range ((b + 1 - rruleFirst w a + 6) / 7)).map (fun k => rruleFirst w a + 7 * k)

/-- All dates in `[a, b]`. -/
def datesInRange (a b : Date) : List Date :=
  (List.range (b + 1 - a)).map (a + ·)

/-- Occurrences of `rrule(freq=MONTHLY, byweekday=FR(-1), dtstart=a, until=b)`:
per calendar month its last Friday, kept when inside `[a, b]`; a date is the
last Friday of its month exactly when it is a Friday whose next Friday falls
in a different month. -/
def lastFridayDates (a b : Date) : List Date :=
  (datesInRange a b).filter (fun d => weekday d == 4 && civilMonth (d + 7) != civilMonth d)

/-- Gannt.py lines 177-193: build the rule for the two known recurrence
types and append one row per occurrence; any other recurrence type fails
(unbound `rule`) with no row appended. -/
def add_recurring_task_advanced (task_name recurrence_type : String)
    (start_date end_date : Date) (df : List Row) :
    Except RecurrenceError (List Row) :=
  if recurrence_type = "Weekly on Monday" then
    .ok (df ++ (rruleWeekly 0 start_date end_date).map (recRow task_name))
  else if recurrence_type = "Last Friday of the Month" then
    .ok (df ++ (lastFridayDates start_date end_date).map (recRow task_name))
  else
    .error .invalidRecurrenceRule

/-- Effect of the recurrence request on the session Task Store: on success it
becomes the extended frame, on failure the exception propagates with the
store still holding its previous rows. -/
def applyRecurrence (task_name recurrence_type : String)
    (start_date end_date : Date) (df : List Row) : List Row :=
  match add_recurring_task_advanced task_name recurrence_type start_date end_date df with
  | .ok df2 => df2
  | .error _ => df

/-! ### Schedule Analyzer and views

Each operation below is embedded as a function from the Task Store snapshot
to a pair: the data it computes for display, and the store as the operation
leaves it.  Operations that only aggregate perform no column assignment in the
source, so they return the store unchanged; `check_project_delay` and
`create_gantt_chart_with_dependencies` assign columns of `df` in place and
return the rewritten store. -/

/-- Pandas comparison `End Date < today`: NaT compares as False. -/
def ltNaT : Option Date → Date → Bool
  | some d, t => decide (d < t)
  | none, _ => false

/-- The `.dt.normalize()` call of line 229.  Dates are modelled at day
granularity (the store's dates come from whole-day `%m/%d/%Y` parses), at
which normalization to midnight is the identity. -/
def normalizeDate (d : Date) : Date := d

/-- Gannt.py lines 225-236: normalize the End Date column in place, then
display the rows with `End Date < today` as the delayed tasks.  The current
date (`pd.to_datetime(datetime.now()).normalize()`, line 226) is an ambient
input of the source; the embedding passes its value explicitly as `today`. -/
def check_project_delay (df : List Row) (today : Date) : List Row × List Row :=
  let df2 := df.map (fun r => { r with end_date := r.end_date.map normalizeDate })
  (df2.filter (fun r => ltNaT r.end_date today), df2)

/-- Line 146 of `create_gantt_chart_with_dependencies`:
`df['Dependencies'] = df['Dependencies'].fillna('')`, an in-place column
assignment turning every NaN dependency cell into the empty string. -/
def fillnaDeps (df : List Row) : List Row :=
  df.map (fun r => { r with dependencies := some (r.dependencies.getD "") })

/-- Dependency arrows drawn for one row (lines 158-171): for each non-empty
dependency cell, split on commas, strip each reference, and for each
reference matching the Task of some row draw a line from that row's End Date
to this row's Start Date. -/
def arrowsFor (df2 : List Row) (r : Row) : List (Option Date × Option Date) :=
  let deps := r.dependencies.getD ""
  if deps ≠ "" then
    (splitCommasTrim deps).filterMap (fun dep =>
      match df2.find? (fun t => t.task == dep) with
      | some tr => some (tr.end_date, r.start_date)
      | none => none)
  else []

/-- Gannt.py lines 144-174: fill the Dependencies column in place, then build
the timeline figure with a dependency arrow per resolved reference. -/
def create_gantt_chart_with_dependencies (df : List Row) :
    List (Option Date × Option Date) × List Row :=
  let df2 := fillnaDeps df
  ((df2.map (arrowsFor df2)).flatten, df2)

/-- `df['Cost'].sum()`: pandas sums skip NaN cells. -/
def sumCost (df : List Row) : ℤ := (df.filterMap (·.cost)).sum

/-- `df['Budget'].sum()`. -/
def sumBudget (df : List Row) : ℤ := (df.filterMap (·.budget)).sum

/-- `df['Progress'].sum()` over the whole frame. -/
def sumProgress (df : List Row) : ℤ := (df.filterMap (·.progress)).sum

/-- Line 207: `burn_rate = df['Cost'].sum() / df['Budget'].sum()`, a numpy
float division. -/
def burn_rate (df : List Row) : PyFloat := pyDiv (sumCost df) (sumBudget df)

/-- Line 209: `df['Progress'].mean()` - the mean of the non-null cells
(NaN when there are none). -/
def overall_progress (df : List Row) : PyFloat :=
  pyDiv (sumProgress df) ((df.filterMap (·.progress)).length)

/-- Ordering used by pandas `groupby` on string keys (keys are sorted
ascending by default). -/
def chListLe : List Char → List Char → Bool
  | [], _ => true
  | _ :: _, [] => false
  | a :: as, b :: bs =>
    if a.toNat < b.toNat then true
    else if b.toNat < a.toNat then false
    else chListLe as bs

/-- String comparison for groupby key sorting. -/
def strLeB (a b : String) : Bool := chListLe a.data b.data

/-- The distinct values of a string key column, in groupby order (sorted
ascending). -/
def groupKeys (keys : List String) : List String :=
  List.insertionSort (fun a b => strLeB a b = true) keys.dedup

/-- Line 208: `df.groupby('Task').agg({'Budget': 'sum', 'Cost': 'sum'})`. -/
def budget_vs_actuals (df : List Row) : List (String × ℤ × ℤ) :=
  (groupKeys (df.map (·.task))).map (fun t =>
    (t, ((df.filter (fun r => r.task == t)).filterMap (·.budget)).sum,
        ((df.filter (fun r => r.task == t)).filterMap (·.cost)).sum))

/-- Gannt.py lines 206-216, the Project Health Dashboard: burn rate, overall
progress and budget-vs-actuals, all computed without assigning into `df`. -/
def create_project_health_dashboard (df : List Row) :
    (PyFloat × PyFloat × List (String × ℤ × ℤ)) × List Row :=
  ((burn_rate df, overall_progress df, budget_vs_actuals df), df)

/-- Gannt.py lines 219-222: `df.groupby('Assignee').agg({'Time Spent': 'sum',
'Task': 'count'})` - NaN assignees are dropped by groupby, keys sorted. -/
def create_resource_load_chart (df : List Row) :
    List (String × ℤ × Nat) × List Row :=
  ((groupKeys (df.filterMap (·.assignee))).map (fun a =>
    (a, ((df.filter (fun r => r.assignee == some a)).filterMap (·.time_spent)).sum,
        ((df.filter (fun r => r.assignee == some a)).filterMap (·.progress)).length)), df)

/-- The distinct non-NaT End Dates of the store, ascending (`groupby` sorts
its keys and drops NaT). -/
def sortedEndDates (df : List Row) : List Date :=
  List.insertionSort (· ≤ ·) (df.filterMap (·.end_date)).dedup

/-- Sum of Progress over the rows of one End Date group (NaN skipped). -/
def progressSumAt (df : List Row) (d : Date) : ℤ :=
  ((df.filter (fun r => r.end_date == some d)).filterMap (·.progress)).sum

/-- Line 347: `df.groupby('End Date')['Progress'].sum()` - the
progress-over-time series. -/
def completion_df (df : List Row) : List (Date × ℤ) :=
  (sortedEndDates df).map (fun d => (d, progressSumAt df d))

/-- Running cumulative totals (`cumsum`) of the second components. -/
def cumsumFrom (acc : ℤ) : List (Date × ℤ) → List (Date × ℤ)
  | [] => []
  | (d, v) :: rest => (d, acc + v) :: cumsumFrom (acc + v) rest

/-- Line 335: `df.groupby('End Date')['Progress'].sum().cumsum()` - the
burn-down series: the same grouped sums as `completion_df`, accumulated. -/
def burn_down_df (df : List Row) : List (Date × ℤ) :=
  cumsumFrom 0 (completion_df df)

/-- The burn-down chart expression as an operation on the store: the groupby
chain performs no assignment into `df`. -/
def burnDownOp (df : List Row) : List (Date × ℤ) × List Row :=
  (burn_down_df df, df)

/-- The progress-over-time chart expression as an operation on the store. -/
def completionOp (df : List Row) : List (Date × ℤ) × List Row :=
  (completion_df df, df)

/-! ### The normalization block (Gannt.py lines 274-277)

The block runs on the editable frame, whose cells may hold numbers, strings
or NaN; only the four columns it touches are modelled. -/

/-- The four columns of the editable frame touched by lines 274-277. -/
structure RawRow where
  subtask : PVal
  priority : PVal
  progress : PVal
  time_spent : PVal
deriving DecidableEq, Repr

/-- `Series.fillna('')`: NaN becomes the empty string. -/
def fillnaEmpty : PVal → PVal
  | .na => .str ""
  | v => v

/-- `Series.replace(old, new)` on one cell. -/
def replaceVal (old new v : PVal) : PVal := if v = old then new else v

/-- Lines 274-277: `Subtask.fillna('')`, `Priority.replace("", "Medium")`,
`Progress.replace("", 0)`, `Time Spent.replace("", 0)`. -/
def normalizeRow (r : RawRow) : RawRow :=
  { subtask := fillnaEmpty r.subtask,
    priority := replaceVal (.str "") (.str "Medium") r.priority,
    progress := replaceVal (.str "") (.num 0) r.progress,
    time_spent := replaceVal (.str "") (.num 0) r.time_spent }

/-- The whole normalization block applied to the store. -/
def normalizeStore (df : List RawRow) : List RawRow := df.map normalizeRow

/-! ### Helper lemmas -/

/-- A map whose function fixes every member of the list is the identity. -/
theorem list_map_self_of_mem {α : Type} {f : α → α} :
    ∀ {l : List α}, (∀ a ∈ l, f a = a) → l.map f = l
  | [], _ => rfl
  | a :: t, h => by
    rw [List.map_cons, h a (List.mem_cons_self a t),
      list_map_self_of_mem (fun x hx => h x (List.mem_cons_of_mem a hx))]

/-- Normalizing the End Date column is the identity at day granularity. -/
theorem map_normalize_self (df : List Row) :
    df.map (fun r => { r with end_date := r.end_date.map normalizeDate }) = df :=
  list_map_self_of_mem (fun r _ => by
    obtain ⟨tk, st, sd, ed, asg, stt, pg, pr, ts, cm, dp, bg, cst⟩ := r
    cases ed <;> rfl)

/-- The store as `check_project_delay` leaves it. -/
theorem check_project_delay_snd (df : List Row) (today : Date) :
    (check_project_delay df today).2 = df :=
  map_normalize_self df

/-- The delayed rows are the filter of the store by the NaT-aware test. -/
theorem check_project_delay_fst (df : List Row) (today : Date) :
    (check_project_delay df today).1 = df.filter (fun r => ltNaT r.end_date today) := by
  show (df.map _).filter _ = _
  rw [map_normalize_self]

/-- Filling NaN dependencies is the identity when no dependency cell is NaN. -/
theorem fillnaDeps_of_some (df : List Row) (h : ∀ r ∈ df, r.dependencies ≠ none) :
    fillnaDeps df = df :=
  list_map_self_of_mem (fun r hr => by
    obtain ⟨tk, st, sd, ed, asg, stt, pg, pr, ts, cm, dp, bg, cst⟩ := r
    cases dp with
    | none => exact absurd rfl (h _ hr)
    | some s => rfl)

/-- A row with an unset date and NaN in every optional column. -/
def blankRow : Row :=
  { task := "T", subtask := none, start_date := none, end_date := none,
    assignee := none, status := none, progress := none, priority := none,
    time_spent := none, comments := none, dependencies := none,
    budget := none, cost := none }

/-! ### Claim C1 - burn rate and division by zero -/

/-- Claim C1, counterexample: a store whose rows all have budget 0 makes
`burn_rate` return the float infinity (or NaN when the cost sum is also 0),
not a `NotComputable` report - the claimed zero-budget behaviour is absent
from the code. -/
theorem burn_rate_zero_budget_counterexample :
    burn_rate [{ blankRow with budget := some 0, cost := some 4800 }] = PyFloat.posInf ∧
    burn_rate [{ blankRow with budget := some 0, cost := some 0 }] = PyFloat.nan := by
  decide

/-- Claim C1 (amended): the burn rate equals sum(cost) / sum(budget) whenever
sum(budget) is nonzero; when sum(budget) = 0 no arithmetic fault is raised
but the result is never a finite value (it is +inf, -inf or NaN), and no
`NotComputable` state exists. -/
theorem burn_rate_division_semantics (df : List Row) :
    (sumBudget df ≠ 0 →
      burn_rate df = PyFloat.val ((sumCost df : ℚ) / (sumBudget df : ℚ))) ∧
    (sumBudget df = 0 → ∀ q : ℚ, burn_rate df ≠ PyFloat.val q) := by
  constructor
  · intro h
    simp [burn_rate, pyDiv, h]
  · intro h q
    simp only [burn_rate, pyDiv, h]
    split
    · exact absurd rfl (by assumption)
    · split
      · simp
      · split <;> simp

/-- Witness for the amended C1 theorem at concrete stores. -/
theorem burn_rate_division_semantics_witness :
    (sumBudget [{ blankRow with budget := some 2, cost := some 1 }] ≠ 0 ∧
      burn_rate [{ blankRow with budget := some 2, cost := some 1 }] =
        PyFloat.val ((sumCost [{ blankRow with budget := some 2, cost := some 1 }] : ℚ) /
          (sumBudget [{ blankRow with budget := some 2, cost := some 1 }] : ℚ))) ∧
    (sumBudget [{ blankRow with budget := some 0, cost := some 4800 }] = 0 ∧
      burn_rate [{ blankRow with budget := some 0, cost := some 4800 }] ≠ PyFloat.val 1) :=
  ⟨⟨by decide, (burn_rate_division_semantics _).1 (by decide)⟩,
   ⟨by decide, (burn_rate_division_semantics _).2 (by decide) 1⟩⟩

/-! ### Claim C4 - unknown recurrence pattern -/

/-- Claim C4: a recurrence request whose pattern is none of the two known
patterns fails (the source raises with `rule` unbound, modelled as the
`InvalidRecurrenceRule` failure) before any row is generated, and the Task
Store keeps exactly its previous rows. -/
theorem unknown_recurrence_fails (task_name recurrence_type : String)
    (a b : Date) (df : List Row)
    (h1 : recurrence_type ≠ "Weekly on Monday")
    (h2 : recurrence_type ≠ "Last Friday of the Month") :
    add_recurring_task_advanced task_name recurrence_type a b df =
      .error .invalidRecurrenceRule ∧
    applyRecurrence task_name recurrence_type a b df = df := by
  have he : add_recurring_task_advanced task_name recurrence_type a b df =
      .error .invalidRecurrenceRule := by
    unfold add_recurring_task_advanced
    rw [if_neg h1, if_neg h2]
  refine ⟨he, ?_⟩
  unfold applyRecurrence
  rw [he]

/-- Witness for C4 at the unknown pattern "Daily". -/
theorem unknown_recurrence_fails_witness :
    add_recurring_task_advanced "Standup" "Daily" 19936 19966 [blankRow] =
      .error .invalidRecurrenceRule ∧
    applyRecurrence "Standup" "Daily" 19936 19966 [blankRow] = [blankRow] :=
  unknown_recurrence_fails "Standup" "Daily" 19936 19966 [blankRow]
    (by decide) (by decide)

/-! ### Claim C5 - unsupported ingestion format -/

/-- Claim C5, counterexample: uploading a file with an unsupported extension
makes `load_data` return None, and the caller (lines 58-60) stores that None
into `st.session_state.df` - the Task Store is overwritten, not left holding
its previous rows. -/
theorem unsupported_format_clears_store_counterexample :
    uploadStep (some [blankRow]) { name := "data.txt", rows := [] } = none ∧
    (none : Option (List Row)) ≠ some [blankRow] := by decide

/-- Claim C5 (amended): for every unsupported extension, ingestion reports
the unsupported-format error and `load_data` yields None; the upload caller
then replaces the Task Store with that None instead of leaving the store
unchanged. -/
theorem unsupported_format_returns_none (store : Option (List Row)) (f : UploadedFile)
    (h1 : strEndsWith f.name (".csv") = false)
    (h2 : strEndsWith f.name (".xlsx") = false) :
    load_data f = none ∧ uploadStep store f = none := by
  have : load_data f = none := by
    simp [load_data, h1, h2]
  exact ⟨this, this⟩

/-- Witness for the amended C5 theorem. -/
theorem unsupported_format_returns_none_witness :
    load_data { name := "data.txt", rows := [] } = none ∧
    uploadStep (some [blankRow]) { name := "data.txt", rows := [] } = none :=
  unsupported_format_returns_none (some [blankRow]) { name := "data.txt", rows := [] }
    (by decide) (by decide)

/-! ### Claim C9 - defaults and negative values at normalization -/

/-- A raw row carrying a negative progress value. -/
def negProgressRow : RawRow :=
  { subtask := .str "", priority := .str "High", progress := .num (-50), time_spent := .num 8 }

/-- Claim C9, counterexample: a row with progress -50 passes the
normalization block untouched and stays in the store - no `InvalidField`
rejection of negative values exists in the code. -/
theorem negative_progress_not_rejected_counterexample :
    negProgressRow ∈ normalizeStore [negProgressRow] ∧
    negProgressRow.progress = PVal.num (-50) ∧ (-50 : ℤ) < 0 := by decide

/-- Claim C9 (amended): the normalization block replaces empty-string
progress and time_spent cells with 0, but a NaN (absent) cell stays NaN
rather than defaulting to 0, and negative numeric values are neither
rejected nor altered - every row survives normalization. -/
theorem normalization_defaults_amended (df : List RawRow) :
    (normalizeStore df).length = df.length ∧
    (∀ r ∈ df, normalizeRow r ∈ normalizeStore df) ∧
    (∀ r : RawRow,
      (r.progress = PVal.str "" → (normalizeRow r).progress = PVal.num 0) ∧
      (r.time_spent = PVal.str "" → (normalizeRow r).time_spent = PVal.num 0) ∧
      (r.progress = PVal.na → (normalizeRow r).progress = PVal.na) ∧
      (∀ n : ℤ, r.progress = PVal.num n → (normalizeRow r).progress = PVal.num n)) := by
  refine ⟨List.length_map _ _, fun r hr => List.mem_map_of_mem _ hr, fun r => ⟨?_, ?_, ?_, ?_⟩⟩
  · intro h; simp [normalizeRow, replaceVal, h]
  · intro h; simp [normalizeRow, replaceVal, h]
  · intro h; simp [normalizeRow, replaceVal, h]
  · intro n h; simp [normalizeRow, replaceVal, h]

/-- A raw row whose progress cell is the empty string. -/
def emptyProgressRow : RawRow :=
  { subtask := .na, priority := .na, progress := .str "", time_spent := .na }

/-- Witness for the amended C9 theorem. -/
theorem normalization_defaults_amended_witness :
    (normalizeRow emptyProgressRow).progress = PVal.num 0 ∧
    (normalizeRow negProgressRow).progress = PVal.num (-50) :=
  ⟨((normalization_defaults_amended []).2.2 emptyProgressRow).1 rfl,
   ((normalization_defaults_amended []).2.2 negProgressRow).2.2.2 (-50) rfl⟩

/-! ### Claim C7 - frame effects of the analyzer operations -/

/-- Claim C7, counterexample: running the Gantt dependency view on a store
holding a row with a NaN dependency cell rewrites that cell to the empty
string - the store is not left unchanged. -/
theorem gantt_view_mutates_store_counterexample :
    (create_gantt_chart_with_dependencies [{ blankRow with task := "A" }]).2 ≠
      [{ blankRow with task := "A" }] := by decide

/-- Claim C7 (amended): delay detection, the health dashboard (burn rate,
overall progress, budget-vs-actuals), the burn-down and progress-over-time
series and the resource-load view leave every row and field of the store
unchanged; the Gantt dependency view leaves the store unchanged only when no
dependency cell is NaN (otherwise it fills those cells with the empty
string in place). -/
theorem analyzer_frame_effects (df : List Row) (today : Date) :
    (check_project_delay df today).2 = df ∧
    (create_project_health_dashboard df).2 = df ∧
    (burnDownOp df).2 = df ∧
    (completionOp df).2 = df ∧
    (create_resource_load_chart df).2 = df ∧
    ((∀ r ∈ df, r.dependencies ≠ none) →
      (create_gantt_chart_with_dependencies df).2 = df) :=
  ⟨check_project_delay_snd df today, rfl, rfl, rfl, rfl,
   fun h => fillnaDeps_of_some df h⟩

/-- Witness for the amended C7 theorem. -/
theorem analyzer_frame_effects_witness :
    (check_project_delay [{ blankRow with dependencies := some "" }] 19976).2 =
      [{ blankRow with dependencies := some "" }] ∧
    (create_gantt_chart_with_dependencies [{ blankRow with dependencies := some "" }]).2 =
      [{ blankRow with dependencies := some "" }] :=
  ⟨(analyzer_frame_effects [{ blankRow with dependencies := some "" }] 19976).1,
   (analyzer_frame_effects [{ blankRow with dependencies := some "" }] 19976).2.2.2.2.2
     (by decide)⟩

/-! ### Claim C2 - delay detection -/

/-- Claim C2: for every store and every value of the (normalized) current
date - which the source obtains implicitly from `datetime.now()` rather than
from a caller argument - the delayed set is exactly the ordered subsequence
of rows whose End Date is set and strictly earlier than today; in particular
with today = 2024-09-10 a task ending 2024-08-09 is delayed and one ending
2024-09-20 is not. -/
theorem check_project_delay_characterization (df : List Row) (today : Date) :
    ((check_project_delay df today).1).Sublist df ∧
    (∀ r : Row, r ∈ (check_project_delay df today).1 ↔
      r ∈ df ∧ ∃ d, r.end_date = some d ∧ d < today) ∧
    (check_project_delay
        [{ blankRow with end_date := some (daysFromCivil 2024 8 9) },
         { blankRow with end_date := some (daysFromCivil 2024 9 20) }]
        (daysFromCivil 2024 9 10)).1 =
      [{ blankRow with end_date := some (daysFromCivil 2024 8 9) }] := by
  refine ⟨?_, ?_, by decide⟩
  · rw [check_project_delay_fst]
    exact List.filter_sublist df
  · intro r
    rw [check_project_delay_fst, List.mem_filter]
    apply and_congr_right
    intro _
    cases hd : r.end_date with
    | none => simp [ltNaT, hd]
    | some d => simp [ltNaT, hd]

/-! ### Claim C10 - unset End Dates are excluded from both series -/

/-- Dropping unset-End-Date rows does not change the End-Date key column. -/
theorem filterMap_end_date_filter_isSome (df : List Row) :
    (df.filter (fun r => (r.end_date).isSome)).filterMap (·.end_date) =
      df.filterMap (·.end_date) := by
  induction df with
  | nil => rfl
  | cons r t ih => cases hd : r.end_date <;>
      simp [List.filter_cons, List.filterMap_cons, hd, ih]

/-- Dropping unset-End-Date rows does not change any per-date progress sum. -/
theorem progressSumAt_filter_isSome (df : List Row) (d : Date) :
    progressSumAt (df.filter (fun r => (r.end_date).isSome)) d =
      progressSumAt df d := by
  unfold progressSumAt
  rw [List.filter_filter]
  congr 1
  congr 1
  apply List.filter_congr
  intro r _
  cases hd : r.end_date <;> simp [hd]

/-- Claim C10: rows with an unset End Date are excluded from both the
progress-over-time and burn-down series - removing them changes neither
series, and every emitted point's date is the End Date of some row. -/
theorem series_skip_unset_end_dates (df : List Row) :
    completion_df (df.filter (fun r => (r.end_date).isSome)) = completion_df df ∧
    burn_down_df (df.filter (fun r => (r.end_date).isSome)) = burn_down_df df ∧
    ∀ p ∈ completion_df df, ∃ r ∈ df, r.end_date = some p.1 := by
  have hkeys : sortedEndDates (df.filter (fun r => (r.end_date).isSome)) =
      sortedEndDates df := by
    unfold sortedEndDates
    rw [filterMap_end_date_filter_isSome]
  have hcomp : completion_df (df.filter (fun r => (r.end_date).isSome)) =
      completion_df df := by
    unfold completion_df
    rw [hkeys]
    apply List.map_congr_left
    intro d _
    rw [progressSumAt_filter_isSome]
  refine ⟨hcomp, by unfold burn_down_df; rw [hcomp], ?_⟩
  intro p hp
  obtain ⟨d, hd, hpe⟩ := List.mem_map.mp hp
  have hd2 : d ∈ (df.filterMap (·.end_date)).dedup :=
    ((List.perm_insertionSort _ _).mem_iff).mp hd
  rw [List.mem_dedup] at hd2
  obtain ⟨r, hr, hre⟩ := List.mem_filterMap.mp hd2
  exact ⟨r, hr, by rw [← hpe]; exact hre⟩

/-! ### Claim C8 - burn-down monotonicity -/

/-- Claim C8, counterexample: the code never rejects negative progress, and
with a negative progress value in the store the cumulative burn-down series
decreases - the series is not monotone for every store the code can hold. -/
theorem burn_down_decreasing_counterexample :
    ¬ List.Chain' (fun p q : Date × ℤ => p.2 ≤ q.2)
      (burn_down_df [{ blankRow with end_date := some 10, progress := some 5 },
                     { blankRow with end_date := some 20, progress := some (-3) }]) := by
  have h : burn_down_df [{ blankRow with end_date := some 10, progress := some 5 },
      { blankRow with end_date := some 20, progress := some (-3) }] =
      [(10, 5), (20, 2)] := by decide
  rw [h, List.chain'_cons]
  rintro ⟨hle, -⟩
  omega

/-- A running cumulative sum of nonnegative increments is non-decreasing. -/
theorem cumsumFrom_chain :
    ∀ (l : List (Date × ℤ)), (∀ p ∈ l, 0 ≤ p.2) →
      ∀ acc : ℤ, List.Chain' (fun p q : Date × ℤ => p.2 ≤ q.2) (cumsumFrom acc l)
  | [], _, _ => List.chain'_nil
  | [p], _, acc => List.chain'_singleton _
  | p :: q :: t, hl, acc => by
    rw [show cumsumFrom acc (p :: q :: t) =
        (p.1, acc + p.2) :: cumsumFrom (acc + p.2) (q :: t) from rfl,
      List.chain'_cons']
    refine ⟨?_, cumsumFrom_chain (q :: t)
      (fun x hx => hl x (List.mem_cons_of_mem p hx)) (acc + p.2)⟩
    intro z hz
    rw [show cumsumFrom (acc + p.2) (q :: t) =
        (q.1, acc + p.2 + q.2) :: cumsumFrom (acc + p.2 + q.2) t from rfl] at hz
    simp only [List.head?_cons, Option.mem_def, Option.some.injEq] at hz
    have hq : 0 ≤ q.2 := hl q (List.mem_cons_of_mem p (List.mem_cons_self q t))
    rw [← hz]
    simp only []
    omega

/-- Claim C8 (amended): for every store whose progress values are all
nonnegative (as the data model intends), the cumulative burn-down series is
monotonically non-decreasing; since ingestion never rejects negative
progress, the unconditional form of the claim fails (see the
counterexample). -/
theorem burn_down_monotone_of_nonneg (df : List Row)
    (h : ∀ r ∈ df, 0 ≤ (r.progress).getD 0) :
    List.Chain' (fun p q : Date × ℤ => p.2 ≤ q.2) (burn_down_df df) := by
  apply cumsumFrom_chain
  intro p hp
  obtain ⟨d, _, hpe⟩ := List.mem_map.mp hp
  rw [← hpe]
  simp only []
  apply List.sum_nonneg
  intro x hx
  obtain ⟨r, hr, hrx⟩ := List.mem_filterMap.mp hx
  have hrdf : r ∈ df := List.mem_of_mem_filter hr
  have h0 := h r hrdf
  rw [hrx] at h0
  simpa using h0

/-- Witness for the amended C8 theorem on a concrete nonnegative store. -/
theorem burn_down_monotone_of_nonneg_witness :
    List.Chain' (fun p q : Date × ℤ => p.2 ≤ q.2)
      (burn_down_df [{ blankRow with end_date := some 10, progress := some 5 },
                     { blankRow with end_date := some 20, progress := some 7 }]) :=
  burn_down_monotone_of_nonneg _ (by decide)

/-! ### Claim C3 - weekly recurrence expansion -/

/-- Forward arithmetic of the weekly rule: each generated occurrence lies in
the requested range. -/
theorem weekly_occ_lt (a b k : ℕ)
    (hk : k < (b + 1 - (a + (0 + 7 - (a + 3) % 7) % 7) + 6) / 7) :
    (0 + 7 - (a + 3) % 7) % 7 + 7 * k < b + 1 - a := by omega

/-- Reassociation of one generated occurrence. -/
theorem weekly_occ_assoc (a s t : ℕ) : a + (s + t) = a + s + t := by omega

/-- Each generated occurrence falls on a Monday. -/
theorem weekly_occ_mod (a k : ℕ) :
    (a + (0 + 7 - (a + 3) % 7) % 7 + 7 * k + 3) % 7 = 0 := by omega

/-- Backward arithmetic: the step index of a Monday in range is below the
occurrence count. -/
theorem weekly_occ_div_lt (a b i : ℕ) (_hi : i < b + 1 - a)
    (hw : (a + i + 3) % 7 = 0) :
    (a + i - (a + (0 + 7 - (a + 3) % 7) % 7)) / 7 <
      (b + 1 - (a + (0 + 7 - (a + 3) % 7) % 7) + 6) / 7 := by omega

/-- Backward arithmetic: stepping recovers the Monday in range. -/
theorem weekly_occ_div_eq (a b i : ℕ) (_hi : i < b + 1 - a)
    (hw : (a + i + 3) % 7 = 0) :
    a + (0 + 7 - (a + 3) % 7) % 7 +
      7 * ((a + i - (a + (0 + 7 - (a + 3) % 7) % 7)) / 7) = a + i := by omega

/-- Stepping by weeks from a fixed start is injective. -/
theorem seven_step_injective (f : ℕ) : Function.Injective (fun k : ℕ => f + 7 * k) := by
  intro i j h
  have h2 : f + 7 * i = f + 7 * j := h
  omega

/-- Adding a fixed offset is injective. -/
theorem add_left_injective_nat (a : ℕ) : Function.Injective (fun i : ℕ => a + i) := by
  intro i j h
  have h2 : a + i = a + j := h
  omega

/-- Stepping by weeks is monotone. -/
theorem seven_step_mono (f i j : ℕ) (h : i < j) : f + 7 * i ≤ f + 7 * j := by omega

/-- Adding a fixed offset is strictly monotone. -/
theorem add_left_lt (a i j : ℕ) (h : i < j) : a + i < a + j := by omega

/-- The week-stepping enumeration of the dateutil weekly rule generates
exactly the dates of the range whose weekday is Monday. -/
theorem rruleWeekly_monday_eq_filter (a b : Date) :
    rruleWeekly 0 a b = (datesInRange a b).filter (fun d => weekday d == 0) := by
  apply List.eq_of_perm_of_sorted (r := (· ≤ ·))
  · rw [List.perm_ext_iff_of_nodup]
    · intro d
      simp only [rruleWeekly, datesInRange, rruleFirst, weekday, List.mem_filter,
        List.mem_map, List.mem_range, beq_iff_eq]
      constructor
      · rintro ⟨k, hk, rfl⟩
        exact ⟨⟨(0 + 7 - (a + 3) % 7) % 7 + 7 * k, weekly_occ_lt a b k hk,
          weekly_occ_assoc a _ _⟩, weekly_occ_mod a k⟩
      · rintro ⟨⟨i, hi, rfl⟩, hw⟩
        exact ⟨(a + i - (a + (0 + 7 - (a + 3) % 7) % 7)) / 7,
          weekly_occ_div_lt a b i hi hw, weekly_occ_div_eq a b i hi hw⟩
    · exact List.Nodup.map (seven_step_injective _) (List.nodup_range _)
    · exact List.Nodup.filter _
        (List.Nodup.map (add_left_injective_nat a) (List.nodup_range _))
  · exact List.Pairwise.map _ (fun i j h => seven_step_mono _ i j h)
      (List.pairwise_lt_range _)
  · exact List.Pairwise.imp (fun h => Nat.le_of_lt h)
      (List.Pairwise.filter _ (List.Pairwise.map _ (fun i j h => add_left_lt a i j h)
        (List.pairwise_lt_range _)))

/-- Claim C3: for every range with end at least start, the "Weekly on
Monday" recurrence appends exactly one row per date of the range whose
weekday is Monday, each with End Date the generated date plus one day,
Status "Not Started" and Progress 0.  (Monday is the only weekday the code
offers a weekly pattern for.) -/
theorem weekly_monday_recurrence (task_name : String) (a b : Date) (df : List Row)
    (_h : a ≤ b) :
    add_recurring_task_advanced task_name "Weekly on Monday" a b df =
      .ok (df ++ ((datesInRange a b).filter (fun d => weekday d == 0)).map
        (recRow task_name)) ∧
    ∀ d : Date, (recRow task_name d).end_date = some (d + 1) ∧
      (recRow task_name d).status = some "Not Started" ∧
      (recRow task_name d).progress = some 0 := by
  refine ⟨?_, fun d => ⟨rfl, rfl, rfl⟩⟩
  unfold add_recurring_task_advanced
  rw [if_pos rfl, rruleWeekly_monday_eq_filter]

/-- Witness for C3 over August 2024: exactly the four Mondays 08-05, 08-12,
08-19 and 08-26 are generated. -/
theorem weekly_monday_recurrence_witness :
    daysFromCivil 2024 8 1 ≤ daysFromCivil 2024 8 31 ∧
    add_recurring_task_advanced "Standup" "Weekly on Monday"
        (daysFromCivil 2024 8 1) (daysFromCivil 2024 8 31) [] =
      .ok [recRow "Standup" (daysFromCivil 2024 8 5),
           recRow "Standup" (daysFromCivil 2024 8 12),
           recRow "Standup" (daysFromCivil 2024 8 19),
           recRow "Standup" (daysFromCivil 2024 8 26)] ∧
    (∀ d ∈ [daysFromCivil 2024 8 5, daysFromCivil 2024 8 12,
            daysFromCivil 2024 8 19, daysFromCivil 2024 8 26],
      (recRow "Standup" d).end_date = some (d + 1)) :=
  ⟨by decide,
   ((weekly_monday_recurrence "Standup" (daysFromCivil 2024 8 1)
      (daysFromCivil 2024 8 31) [] (by decide)).1).trans
     (congrArg Except.ok (by decide)),
   by decide⟩

/-! ### Claim C6 - export / re-ingest round trip -/

/-- A scheduled store row: Design, 2024-08-01 through 2024-08-02. -/
def designRow : Row :=
  { blankRow with task := "Design", start_date := some (daysFromCivil 2024 8 1), end_date := some (daysFromCivil 2024 8 2) }

/-- Claim C6: exporting a store and re-ingesting the exported file does not
reproduce the rows.  The export writes dates in ISO `YYYY-MM-DD` form while
ingestion parses only `%m/%d/%Y` with coercion to NaT, so every date of the
round-tripped store is unset - a loss of value, not a formatting
difference. -/
theorem export_reingest_loses_dates :
    roundTrip [designRow] = some [{ blankRow with task := "Design" }] ∧
    roundTrip [designRow] ≠ some [designRow] := by decide

end PMO
